import Mathlib

/-!
Verification development for the truckpe-backend conversational-commerce core.

Shallow embedding conventions:
* wall-clock time (`time.Time`, Unix nanoseconds/seconds) is a `Nat` passed
  explicitly as `now`; two adjacent `time.Now()` calls inside one Go function
  are modelled by the single `now` value of that call;
* Go `float64` money/capacity fields are modelled by `Rat` and the literal
  float constants `0.05` / `0.95` by the rationals `5/100` / `95/100`;
* Go maps are modelled by association lists (`List (String × α)`) with
  first-match lookup; Go map assignment is `assocInsert` (replace-or-append);
  where Go iterates a map (nondeterministic order) the model fixes insertion
  order, a sound refinement for the properties proved here;
* Go `len(s)` on strings counts UTF-8 bytes, modelled by `String.utf8ByteSize`;
* fallible Go functions returning `error` are modelled with `Except`, with an
  inductive error type whose constructors carry the Go error strings in
  comments;
* outbound WhatsApp template / plain-text sends are pure effects with no
  bearing on store or session state; they are dropped, and template sends are
  taken to succeed (the failure branches only change which text goes out,
  except where noted in comments).
-/

namespace TruckPe

/-- Association-list insert modelling Go map assignment `m[key] = v`:
replaces the first binding of `key`, appends if absent. -/
def assocInsert {β : Type} (key : String) (v : β) : List (String × β) → List (String × β)
  | [] => [(key, v)]
  | (k, w) :: rest => if k == key then (key, v) :: rest else (k, w) :: assocInsert key v rest

/-- Association-list delete modelling Go `delete(m, key)`. -/
def assocErase {β : Type} (key : String) : List (String × β) → List (String × β)
  | [] => []
  | (k, w) :: rest => if k == key then rest else (k, w) :: assocErase key rest

/-- Replace the first element satisfying `p` (Go mutates the single map entry
returned by a lookup; store keys are unique by construction). -/
def updateFirst {α : Type} (p : α → Bool) (f : α → α) : List α → List α
  | [] => []
  | x :: xs => if p x then f x :: xs else x :: updateFirst p f xs

/-- Word splitter on spaces over a char list: accumulator-style model of Go
`strings.Fields` for the single-line, space-separated legacy commands. -/
def wordsAux : List Char → List Char → List String
  | [], acc => if acc.isEmpty then [] else [String.mk acc.reverse]
  | c :: cs, acc =>
    if c == ' ' then
      if acc.isEmpty then wordsAux cs []
      else String.mk acc.reverse :: wordsAux cs []
    else wordsAux cs (c :: acc)

/-- Model of Go `strings.Fields` (space-separated input). -/
def fields (s : String) : List String :=
  wordsAux s.data []

/-- Whether `pat` starts the char list `s`. -/
def listStartsWith : List Char → List Char → Bool
  | _, [] => true
  | [], _ :: _ => false
  | a :: as, b :: bs => a == b && listStartsWith as bs

/-- Whether `pat` occurs as a contiguous subsequence of `s`. -/
def containsSeq : List Char → List Char → Bool
  | [], pat => pat.isEmpty
  | a :: as, pat => listStartsWith (a :: as) pat || containsSeq as pat

/-- Model of Go `strings.Contains s sub`. -/
def strContains (s sub : String) : Bool :=
  containsSeq s.data sub.data

/-- Model of Go `strings.TrimSpace` for the space character (the only
whitespace occurring in the flows' inputs). -/
def strTrim (s : String) : String :=
  String.mk (((s.data.dropWhile (· == ' ')).reverse.dropWhile (· == ' ')).reverse)

/-- Model of Go `strings.ToLower`. -/
def strToLower (s : String) : String :=
  String.mk (s.data.map Char.toLower)

/-- Model of Go `strings.ToUpper`. -/
def strToUpper (s : String) : String :=
  String.mk (s.data.map Char.toUpper)

/-- Model of Go `len(s)` on strings: the UTF-8 byte count. -/
def strLen (s : String) : Nat :=
  s.data.foldl (fun n c => n + c.utf8Size) 0

/-- Model of Go `fmt.Sprintf "%05d"`. -/
def pad5 (n : Nat) : String :=
  let s := toString n
  String.mk (List.replicate (5 - s.length) '0') ++ s

/-- Decimal digit run → value; fails on any non-digit. -/
def digitsToNat : List Char → Nat → Option Nat
  | [], acc => some acc
  | c :: cs, acc =>
    if c.isDigit then digitsToNat cs (acc * 10 + (c.toNat - 48)) else none

/-- Split a char list at the first '.' character. -/
def splitAtDot : List Char → List Char → (List Char × Option (List Char))
  | [], acc => (acc.reverse, none)
  | c :: cs, acc =>
    if c == '.' then (acc.reverse, some cs) else splitAtDot cs (c :: acc)

/-- Model of `fmt.Sscanf(message, "%f", &capacity)` restricted to plain
decimal literals (`"15"`, `"15.5"`), the shapes the registration flow asks
for; other inputs are rejected, as Sscanf rejects non-numeric input. -/
def parseRat (s : String) : Option Rat :=
  match splitAtDot s.data [] with
  | (w, none) =>
    match w with
    | [] => none
    | _ => (digitsToNat w 0).map (fun n => (n : Rat))
  | (w, some f) =>
    match w, f with
    | [], _ => none
    | _, [] => none
    | _, _ =>
      match digitsToNat w 0, digitsToNat f 0 with
      | some n, some m => some ((n : Rat) + (m : Rat) / (10 : Rat) ^ f.length)
      | _, _ => none

/-! ## Data model (internal/models) -/

/-- Trucker (internal/models/trucker.go), fields used by the core. -/
structure Trucker where
  truckerID : String
  name : String
  phone : String
  vehicleNo : String
  vehicleType : String
  capacity : Rat
  verified : Bool
  rating : Rat
  totalTrips : Nat
  available : Bool
  createdAt : Nat
  updatedAt : Nat
deriving DecidableEq

/-- Shipper (internal/models in the unnamed parts), fields used by the core. -/
structure Shipper where
  shipperID : String
  companyName : String
  gstNumber : String
  phone : String
deriving DecidableEq

/-- Load (internal/models/load.go), fields used by the core. -/
structure Load where
  loadID : String
  shipperID : String
  shipperPhone : String
  fromCity : String
  toCity : String
  price : Rat
  status : String
  createdAt : Nat
  updatedAt : Nat
deriving DecidableEq

/-- Booking (models). `cancelledAt` is written by `handleCancel`
(whatsapp.go:1775) but the field's declaration is not among the bundled model
sources; modelled as the optional timestamp the handler stores into it. -/
structure Booking where
  bookingID : String
  loadID : String
  truckerID : String
  shipperID : String
  agreedPrice : Rat
  commission : Rat
  netAmount : Rat
  status : String
  paymentStatus : String
  confirmedAt : Option Nat
  pickedUpAt : Option Nat
  deliveredAt : Option Nat
  completedAt : Option Nat
  cancelledAt : Option Nat
  createdAt : Nat
  updatedAt : Nat
deriving DecidableEq

/-- OTP record (internal/models/otp.go). -/
structure OTP where
  phone : String
  code : String
  purpose : String
  referenceID : String
  expiresAt : Nat
  verifiedAt : Option Nat
  attempts : Nat
  isUsed : Bool
deriving DecidableEq

def LoadStatusAvailable : String := "available"

def LoadStatusBooked : String := "booked"

def BookingStatusConfirmed : String := "confirmed"

def BookingStatusInTransit : String := "in_transit"

def BookingStatusDelivered : String := "delivered"

def BookingStatusCompleted : String := "completed"

/-- Modelled from the spec: `models.BookingStatusCancelled` is referenced by
`handleCancel` (whatsapp.go:1773) but its declaration is missing from the
bundled sources; the spec's booking status order names the state
`cancelled`. -/
def BookingStatusCancelled : String := "cancelled"

def PaymentStatusPending : String := "pending"

/-! ## In-memory store (internal/storage/memory.go) -/

/-- Store-level error kinds; each constructor corresponds to a Go
`fmt.Errorf` string noted alongside. -/
inductive StoreErr
  | loadNotFound            -- "load not found"
  | loadNotAvailable        -- "load not available"
  | truckerNotFound         -- "trucker not found"
  | truckerNotAvailable     -- "trucker not available"
  | bookingNotFound         -- "booking not found"
  | phoneAlreadyRegistered  -- "phone number already registered"
  | vehicleAlreadyRegistered -- "vehicle already registered"
deriving DecidableEq

/-- MemoryStore (memory.go). The uint-keyed maps and the string-keyed index
maps always hold the same objects; a single list per entity models both. The
secondary numeric-uint alias lookups (`fmt.Sscanf(id, "%d", ...)`) are not
modelled: every caller in the verified flows passes the string business id. -/
structure MemoryStore where
  truckers : List Trucker
  shippers : List Shipper
  loads : List Load
  bookings : List Booking
  otps : List (String × OTP)
  truckerCounter : Nat
  loadCounter : Nat
  bookingCounter : Nat
deriving DecidableEq

def MemoryStore.getTrucker (m : MemoryStore) (id : String) : Option Trucker :=
  m.truckers.find? (fun t => t.truckerID == id)

def MemoryStore.getTruckerByPhone (m : MemoryStore) (phone : String) : Option Trucker :=
  m.truckers.find? (fun t => t.phone == phone)

def MemoryStore.getShipperByPhone (m : MemoryStore) (phone : String) : Option Shipper :=
  m.shippers.find? (fun s => s.phone == phone)

def MemoryStore.getLoad (m : MemoryStore) (id : String) : Option Load :=
  m.loads.find? (fun l => l.loadID == id)

def MemoryStore.getBooking (m : MemoryStore) (id : String) : Option Booking :=
  m.bookings.find? (fun b => b.bookingID == id)

/-- CreateTrucker (memory.go): scans existing truckers for a duplicate phone
or vehicle (per record, phone checked before vehicle, as in the Go loop body),
then assigns `TRK%05d` from the bumped counter. -/
def MemoryStore.createTrucker (m : MemoryStore) (now : Nat)
    (name phone vehicleNo vehicleType : String) (capacity : Rat) :
    Except StoreErr (MemoryStore × Trucker) :=
  match m.truckers.find? (fun t => t.phone == phone || t.vehicleNo == vehicleNo) with
  | some t =>
    if t.phone == phone then .error .phoneAlreadyRegistered
    else .error .vehicleAlreadyRegistered
  | none =>
    let counter := m.truckerCounter + 1
    let trucker : Trucker :=
      { truckerID := "TRK" ++ pad5 counter
        name := name
        phone := phone
        vehicleNo := vehicleNo
        vehicleType := vehicleType
        capacity := capacity
        verified := false
        rating := 5
        totalTrips := 0
        available := true
        createdAt := now
        updatedAt := now }
    .ok ({ m with truckerCounter := counter, truckers := m.truckers ++ [trucker] }, trucker)

/-- UpdateLoadStatus (memory.go:218): sets the status and `UpdatedAt` of the
load found by id, `"load not found"` otherwise. -/
def MemoryStore.updateLoadStatus (m : MemoryStore) (now : Nat) (id status : String) :
    Except StoreErr MemoryStore :=
  if (m.getLoad id).isSome then
    .ok { m with loads := updateFirst (fun l => l.loadID == id)
                  (fun l => { l with status := status, updatedAt := now }) m.loads }
  else .error .loadNotFound

/-- CreateBooking (memory.go:243): checks load availability then trucker
availability, books the load, takes the trucker off the market, and fixes
commission at 5 percent of the load price. -/
def MemoryStore.createBooking (m : MemoryStore) (now : Nat) (loadID truckerID : String) :
    Except StoreErr (MemoryStore × Booking) :=
  match m.getLoad loadID with
  | none => .error .loadNotFound
  | some load =>
    if load.status ≠ "available" then .error .loadNotAvailable
    else
      match m.getTrucker truckerID with
      | none => .error .truckerNotFound
      | some trucker =>
        if trucker.available = false then .error .truckerNotAvailable
        else
          let counter := m.bookingCounter + 1
          let booking : Booking :=
            { bookingID := "BK" ++ pad5 counter
              loadID := loadID
              truckerID := truckerID
              shipperID := load.shipperID
              agreedPrice := load.price
              commission := load.price * (5 / 100)   -- load.Price * 0.05
              netAmount := load.price * (95 / 100)   -- load.Price * 0.95
              status := BookingStatusConfirmed
              paymentStatus := PaymentStatusPending
              confirmedAt := some now
              pickedUpAt := none
              deliveredAt := none
              completedAt := none
              cancelledAt := none
              createdAt := now
              updatedAt := now }
          .ok ({ m with
                  bookingCounter := counter
                  loads := updateFirst (fun l => l.loadID == loadID)
                    (fun l => { l with status := "booked", updatedAt := now }) m.loads
                  truckers := updateFirst (fun t => t.truckerID == truckerID)
                    (fun t => { t with available := false, updatedAt := now }) m.truckers
                  bookings := m.bookings ++ [booking] }, booking)

/-- UpdateBooking (memory.go:406): stamps `UpdatedAt` and copies the passed
booking over the stored entry with the same `BookingID`; silently a no-op if
no such entry exists (the Go function returns nil either way). -/
def MemoryStore.updateBooking (m : MemoryStore) (now : Nat) (b : Booking) : MemoryStore :=
  { m with bookings := updateFirst (fun x => x.bookingID == b.bookingID)
            (fun _ => { b with updatedAt := now }) m.bookings }

/-! ## OTP storage and service (storage/memory.go, services/otp.go) -/

/-- OTP error kinds surfaced by `GetActiveOTP` / `VerifyOTP`; Go error strings
in comments. -/
inductive OTPErr
  | notFound        -- "OTP not found or invalid"
  | expired         -- "OTP expired"
  | alreadyUsed     -- "OTP already used"
  | tooManyAttempts -- "too many attempts"
deriving DecidableEq

/-- Storage key `"%s:%s:%s"` of phone, code and purpose (memory.go:524). -/
def otpKey (phone code purpose : String) : String :=
  phone ++ ":" ++ code ++ ":" ++ purpose

/-- CreateOTP (memory.go): stores the record under its composite key,
overwriting any previous record at that key. -/
def MemoryStore.createOTP (m : MemoryStore) (otp : OTP) : MemoryStore :=
  { m with otps := assocInsert (otpKey otp.phone otp.code otp.purpose) otp m.otps }

/-- GetActiveOTP (memory.go:529): looks the record up by the composite key —
so only the exact code can ever be found — and rejects used records. -/
def MemoryStore.getActiveOTP (m : MemoryStore) (phone code purpose : String) :
    Except OTPErr OTP :=
  match m.otps.lookup (otpKey phone code purpose) with
  | none => .error .notFound
  | some otp => if otp.isUsed then .error .alreadyUsed else .ok otp

/-- UpdateOTP (memory.go): writes the record back under its key. -/
def MemoryStore.updateOTP (m : MemoryStore) (otp : OTP) : MemoryStore :=
  { m with otps := assocInsert (otpKey otp.phone otp.code otp.purpose) otp m.otps }

/-- CreateOTP (otp.go:34): the generated 6-digit code is cryptographically
random in Go and is passed in here as the `code` argument; expiry is 10
minutes (600 seconds) from issuance. -/
def OTPService.createOTP (m : MemoryStore) (now : Nat)
    (phone purpose referenceID code : String) : MemoryStore × OTP :=
  let otp : OTP :=
    { phone := phone
      code := code
      purpose := purpose
      referenceID := referenceID
      expiresAt := now + 10 * 60
      verifiedAt := none
      attempts := 0
      isUsed := false }
  (m.createOTP otp, otp)

/-- VerifyOTP (otp.go:55). On the too-many-attempts branch the Go code has
already incremented `Attempts` through the pointer shared with the store, so
the bumped record is written back there as well; on the earlier error
branches nothing is mutated. -/
def OTPService.verifyOTP (m : MemoryStore) (now : Nat) (phone code purpose : String) :
    MemoryStore × Except OTPErr String :=
  match m.getActiveOTP phone code purpose with
  | .error e => (m, .error e)
  | .ok otp =>
    if otp.expiresAt < now then (m, .error .expired)      -- time.Now().After(ExpiresAt)
    else if otp.isUsed then (m, .error .alreadyUsed)
    else
      let otp1 := { otp with attempts := otp.attempts + 1 }
      if otp1.attempts > 3 then (m.updateOTP otp1, .error .tooManyAttempts)
      else
        let otp2 := { otp1 with verifiedAt := some now, isUsed := true }
        (m.updateOTP otp2, .ok otp2.referenceID)

/-! ## Session manager (services/session.go) -/

/-- Typed rendering of the values stored in the registration scratch map
`registration_data : map[string]interface{}` — strings and float64s. -/
inductive RegVal
  | str (s : String)
  | num (q : Rat)
deriving DecidableEq

/-- Typed rendering of the values stored in the session context bag
`Context : map[string]interface{}` — strings (flow/step markers) and the
nested registration map. -/
inductive CtxVal
  | str (s : String)
  | data (kvs : List (String × RegVal))
deriving DecidableEq

/-- Session (session.go:13). -/
structure Session where
  sessionID : String
  userPhone : String
  userType : String
  userID : String
  userName : String
  createdAt : Nat
  lastActive : Nat
  expiresAt : Nat
  isActive : Bool
  context : List (String × CtxVal)
deriving DecidableEq

/-- SessionManager (session.go:27): per-phone session table plus the fixed
TTL, 30 minutes (1800 seconds) as wired in `NewSessionManager`. -/
structure SessionManager where
  sessions : List (String × Session)
  sessionTTL : Nat
deriving DecidableEq

inductive SessionErr
  | sessionNotFound -- "session not found"
deriving DecidableEq

/-- Fresh session value built by CreateSession (session.go:91); the Go
session id is `fmt.Sprintf("SES%d", time.Now().UnixNano())`, rendered here
from the same clock value. -/
def SessionManager.freshSession (sm : SessionManager) (now : Nat)
    (userPhone userType userID userName : String) : Session :=
  { sessionID := "SES" ++ toString now
    userPhone := userPhone
    userType := userType
    userID := userID
    userName := userName
    createdAt := now
    lastActive := now
    expiresAt := now + sm.sessionTTL
    isActive := true
    context := [] }

/-- CreateSession (session.go:78): when a session for the phone exists and its
active flag is set — expiry is NOT checked here — it is returned with its TTL
refreshed; otherwise a fresh session replaces whatever was stored. -/
def SessionManager.createSession (sm : SessionManager) (now : Nat)
    (userPhone userType userID userName : String) : SessionManager × Session :=
  match sm.sessions.lookup userPhone with
  | some existing =>
    if existing.isActive then
      let touched := { existing with lastActive := now, expiresAt := now + sm.sessionTTL }
      ({ sm with sessions := assocInsert userPhone touched sm.sessions }, touched)
    else
      let fresh := sm.freshSession now userPhone userType userID userName
      ({ sm with sessions := assocInsert userPhone fresh sm.sessions }, fresh)
  | none =>
    let fresh := sm.freshSession now userPhone userType userID userName
    ({ sm with sessions := assocInsert userPhone fresh sm.sessions }, fresh)

/-- UpdateSessionActivity (session.go:129): refresh `LastActive`/`ExpiresAt`. -/
def SessionManager.updateSessionActivity (sm : SessionManager) (now : Nat)
    (userPhone : String) : Except SessionErr SessionManager :=
  match sm.sessions.lookup userPhone with
  | none => .error .sessionNotFound
  | some s =>
    let touched := { s with lastActive := now, expiresAt := now + sm.sessionTTL }
    .ok { sm with sessions := assocInsert userPhone touched sm.sessions }

/-- UpdateSessionContext (session.go:145): write one context key and refresh
`LastActive`/`ExpiresAt`. -/
def SessionManager.updateSessionContext (sm : SessionManager) (now : Nat)
    (userPhone key : String) (value : CtxVal) : Except SessionErr SessionManager :=
  match sm.sessions.lookup userPhone with
  | none => .error .sessionNotFound
  | some s =>
    let touched := { s with context := assocInsert key value s.context,
                            lastActive := now, expiresAt := now + sm.sessionTTL }
    .ok { sm with sessions := assocInsert userPhone touched sm.sessions }

/-- ExtendSession (session.go:272): adds the requested minutes to `ExpiresAt`
without touching `LastActive`. The Go parameter is an `int`; every use in the
repository passes a nonnegative extension, so `Nat` suffices. -/
def SessionManager.extendSession (sm : SessionManager) (userPhone : String)
    (additionalMinutes : Nat) : Except SessionErr SessionManager :=
  match sm.sessions.lookup userPhone with
  | none => .error .sessionNotFound
  | some s =>
    let stretched := { s with expiresAt := s.expiresAt + additionalMinutes * 60 }
    .ok { sm with sessions := assocInsert userPhone stretched sm.sessions }

/-- TTL invariant claimed by the spec: every stored session's `expires_at`
equals its `last_active_at` plus the manager's TTL. -/
def SessionInv (sm : SessionManager) : Prop :=
  ∀ e ∈ sm.sessions, e.2.expiresAt = e.2.lastActive + sm.sessionTTL

instance (sm : SessionManager) : Decidable (SessionInv sm) := by
  unfold SessionInv
  infer_instance

/-! ## Legacy command handlers (services/whatsapp.go)

Each response constructor stands for one textual return site of the Go
handler; the rendered message strings themselves carry no further state. -/

/-- Outcomes of `handleDeliveryConfirmation` (whatsapp.go:1324). -/
inductive DeliverResp
  | formatErr          -- "Format: DELIVER <BookingID> <OTP> ..."
  | truckerNotFound    -- "Trucker not found. Please register first!"
  | bookingNotFound    -- "Booking not found. Check the booking ID."
  | notYourBooking     -- "This booking doesn't belong to you."
  | otpExpired         -- error text contains "expired"
  | otpAlreadyUsed     -- error text contains "already used"
  | otpTooManyAttempts -- error text contains "too many attempts"
  | otpInvalid         -- any other verify error ("Invalid OTP ...")
  | otpMismatch        -- "OTP doesn't match this booking."
  | delivered          -- success path (template / fallback summary)
deriving DecidableEq

/-- handleDeliveryConfirmation (whatsapp.go:1324): parses
`DELIVER <BookingID> <OTP>`, checks the caller owns the booking, verifies the
delivery OTP, then marks the booking delivered with payment pending and the
load completed (a failing load update is logged and ignored). -/
def handleDeliveryConfirmation (m : MemoryStore) (now : Nat) (phone msg : String) :
    MemoryStore × DeliverResp :=
  match fields msg with
  | _ :: bookingID :: otpCode :: _ =>
    match m.getTruckerByPhone phone with
    | none => (m, .truckerNotFound)
    | some trucker =>
      match m.getBooking bookingID with
      | none => (m, .bookingNotFound)
      | some booking =>
        if booking.truckerID ≠ trucker.truckerID then (m, .notYourBooking)
        else
          match OTPService.verifyOTP m now phone otpCode "booking_delivery" with
          | (m1, .error .expired) => (m1, .otpExpired)
          | (m1, .error .alreadyUsed) => (m1, .otpAlreadyUsed)
          | (m1, .error .tooManyAttempts) => (m1, .otpTooManyAttempts)
          | (m1, .error .notFound) => (m1, .otpInvalid)
          | (m1, .ok refID) =>
            if refID ≠ bookingID then (m1, .otpMismatch)
            else
              let booking1 := { booking with
                deliveredAt := some now
                status := BookingStatusDelivered
                paymentStatus := "pending" }
              let m2 := m1.updateBooking now booking1
              let m3 := match m2.updateLoadStatus now booking1.loadID "completed" with
                        | .ok m3 => m3
                        | .error _ => m2   -- logged, delivery not failed
              (m3, .delivered)
  | _ => (m, .formatErr)

/-- Outcomes of `handleCancel` (whatsapp.go:1739). -/
inductive CancelResp
  | formatErr       -- "Please specify Booking ID ..."
  | notRegistered   -- "Please register first!"
  | bookingNotFound -- "Booking not found. Check the booking ID."
  | notYourBooking  -- "This booking doesn't belong to you."
  | alreadyPickedUp -- "Cannot cancel! Load already picked up. ..."
  | cancelled       -- success path (template / fallback summary)
deriving DecidableEq

/-- handleCancel (whatsapp.go:1739): parses `CANCEL <BookingID>`; requires the
caller to be a registered trucker or shipper; ownership is verified only when
the caller is a trucker; rejects once `PickedUpAt` is set; otherwise marks the
booking cancelled and puts the load back on the market (a failing load update
is ignored). -/
def handleCancel (m : MemoryStore) (now : Nat) (phone msg : String) :
    MemoryStore × CancelResp :=
  match fields msg with
  | _ :: bookingID :: _ =>
    let trucker := m.getTruckerByPhone phone
    let shipper := m.getShipperByPhone phone
    if trucker.isNone && shipper.isNone then (m, .notRegistered)
    else
      match m.getBooking bookingID with
      | none => (m, .bookingNotFound)
      | some booking =>
        if (match trucker with
            | some t => booking.truckerID != t.truckerID
            | none => false) then (m, .notYourBooking)
        else if booking.pickedUpAt.isSome then (m, .alreadyPickedUp)
        else
          let booking1 := { booking with
            status := BookingStatusCancelled
            cancelledAt := some now }
          let m1 := m.updateBooking now booking1
          let m2 := match m1.updateLoadStatus now booking.loadID "available" with
                    | .ok x => x
                    | .error _ => m1
          (m2, .cancelled)
  | _ => (m, .formatErr)

/-! ## Guided trucker registration flow (services/session.go:1008)

The Go flow mutates one `*Session` shared with the session manager, both
directly and via `UpdateSessionContext` (whose TTL refresh is the session
manager's concern, proved separately); the model tracks the session's
identity fields and context bag. Template sends are pure output and assumed
delivered (their failure branches only change the rendered text, except in
`collect_name`, whose step write is modelled on the delivered branch). -/

/-- Session view used by the natural flow handlers. -/
structure NFSession where
  userPhone : String
  userType : String
  userID : String
  userName : String
  context : List (String × CtxVal)
deriving DecidableEq

/-- Typed read of `session.Context["registration_data"].(map[string]interface{})`. -/
def getRegData (ctx : List (String × CtxVal)) : Option (List (String × RegVal)) :=
  match ctx.lookup "registration_data" with
  | some (.data kvs) => some kvs
  | _ => none

/-- Typed read of `session.Context["step"].(string)` with Go's zero-value
default `""`. -/
def ctxStep (ctx : List (String × CtxVal)) : String :=
  match ctx.lookup "step" with
  | some (.str s) => s
  | _ => ""

/-- Outcomes of `handleTruckerRegistrationFlow`, one per textual return
site. -/
inductive RegResp
  | namePrompt         -- trucker_registration_name template
  | nameInvalid        -- "Please enter your full name (at least 3 characters)."
  | vehiclePrompt      -- "Nice to meet you ... vehicle registration number"
  | vehicleInvalid     -- "Invalid vehicle number. ..."
  | vehicleTypePrompt  -- vehicle_type_selection template
  | vehicleTypeInvalid -- "Please select a valid option (1-6) ..."
  | capacityPrompt     -- "Got it! ... loading capacity in tons?"
  | capacityInvalid    -- "Please enter a valid capacity in tons ..."
  | confirmPrompt      -- registration_confirmation template
  | confirmRepromptBtn -- "Please confirm by clicking the button or typing YES/NO."
  | confirmRepromptText -- "Please reply YES to confirm or NO to start over."
  | phoneDuplicate     -- "This phone number is already registered! ..."
  | vehicleDuplicate   -- "This vehicle is already registered with another account!"
  | registrationFailed -- "Registration failed. Please try again or contact support."
  | success            -- registration_success template
  | internalErr        -- missing/ill-typed regData field: Go panics on the type assertion
deriving DecidableEq

/-- Button payload → vehicle type (session.go:1124). -/
def buttonVehicleType (p : String) : Option String :=
  match p with
  | "vehicle_mini" => some "Mini Truck"
  | "vehicle_light" => some "Light Truck"
  | "vehicle_heavy" => some "Heavy Truck"
  | "vehicle_trailer" => some "Trailer"
  | "vehicle_container" => some "Container"
  | "vehicle_other" => some "Other"
  | _ => none

/-- Numbered text menu of vehicle types (session.go:1145). -/
def vehicleTypeMenu : List (String × String) :=
  [("1", "Mini Truck"), ("2", "Light Truck"), ("3", "Heavy Truck"),
   ("4", "Trailer"), ("5", "Container"), ("6", "Other")]

/-- Text fallback for the vehicle type: menu number first, then free-text
containment against the menu values (the Go loop ranges over a map in
unspecified order; the model fixes menu order). -/
def textVehicleType (message : String) : Option String :=
  match vehicleTypeMenu.lookup (strTrim message) with
  | some vt => some vt
  | none =>
    (vehicleTypeMenu.map Prod.snd).find? (fun vt => strContains (strToLower message) (strToLower vt))

/-- Body of the `collect_name` case (session.go:1019): sends the name prompt
and advances the step marker. Factored out because the `confirm_registration`
restart branch and the default branch re-enter the flow at this case. -/
def collectNameStep (ctx : List (String × CtxVal)) : List (String × CtxVal) × RegResp :=
  (assocInsert "step" (CtxVal.str "validate_name") ctx, .namePrompt)

/-- Restart branch of `confirm_registration` (session.go:1255, 1269): step
back to `collect_name`, wipe `registration_data`, then re-enter the flow at
`collect_name`, which advances the step to `validate_name`. -/
def restartRegistration (m : MemoryStore) (sess : NFSession)
    (ctx : List (String × CtxVal)) : MemoryStore × NFSession × RegResp :=
  let ctx1 := assocInsert "registration_data" (CtxVal.data [])
                (assocInsert "step" (CtxVal.str "collect_name") ctx)
  let (ctx2, r) := collectNameStep ctx1
  (m, { sess with context := ctx2 }, r)

/-- Confirmed branch of `confirm_registration` (session.go:1290): reads the
four collected fields (Go type-asserts; a missing field would panic), creates
the trucker, updates the session identity and clears the flow context keys. -/
def confirmedRegistration (m : MemoryStore) (now : Nat) (sess : NFSession)
    (ctx : List (String × CtxVal)) (regData : List (String × RegVal)) :
    MemoryStore × NFSession × RegResp :=
  match regData.lookup "name", regData.lookup "vehicle_no",
        regData.lookup "vehicle_type", regData.lookup "capacity" with
  | some (.str name), some (.str vehicleNo), some (.str vehicleType), some (.num capacity) =>
    match m.createTrucker now name sess.userPhone vehicleNo vehicleType capacity with
    | .error .phoneAlreadyRegistered => (m, { sess with context := ctx }, .phoneDuplicate)
    | .error .vehicleAlreadyRegistered => (m, { sess with context := ctx }, .vehicleDuplicate)
    | .error _ => (m, { sess with context := ctx }, .registrationFailed)
    | .ok (m1, trucker) =>
      let ctx1 := assocErase "registration_data" (assocErase "step" (assocErase "flow" ctx))
      (m1, { sess with userType := "trucker", userID := trucker.truckerID,
                       userName := trucker.name, context := ctx1 }, .success)
  | _, _, _, _ => (m, { sess with context := ctx }, .internalErr)

/-- handleTruckerRegistrationFlow (session.go:1008): the per-step state
machine of the guided trucker registration. -/
def handleTruckerRegistrationFlow (m : MemoryStore) (now : Nat) (sess : NFSession)
    (step msg buttonPayload : String) : MemoryStore × NFSession × RegResp :=
  let ctx0 := sess.context
  let init :=
    match getRegData ctx0 with
    | some kvs => (ctx0, kvs)
    | none => (assocInsert "registration_data" (CtxVal.data []) ctx0,
               ([] : List (String × RegVal)))
  let ctx := init.1
  let regData := init.2
  match step with
  | "collect_name" =>
    let (ctx1, r) := collectNameStep ctx
    (m, { sess with context := ctx1 }, r)
  | "validate_name" =>
    let name := strTrim msg
    if strLen name < 3 then (m, { sess with context := ctx }, .nameInvalid)
    else
      let rd1 := assocInsert "name" (RegVal.str name) regData
      let ctx1 := assocInsert "registration_data" (CtxVal.data rd1)
                    (assocInsert "step" (CtxVal.str "validate_vehicle") ctx)
      (m, { sess with context := ctx1 }, .vehiclePrompt)
  | "validate_vehicle" =>
    let vehicleNo := strToUpper (strTrim msg)
    if strLen vehicleNo < 6 || strLen vehicleNo > 15 then
      (m, { sess with context := ctx }, .vehicleInvalid)
    else
      let rd1 := assocInsert "vehicle_no" (RegVal.str vehicleNo) regData
      let ctx1 := assocInsert "registration_data" (CtxVal.data rd1)
                    (assocInsert "step" (CtxVal.str "validate_vehicle_type") ctx)
      (m, { sess with context := ctx1 }, .vehicleTypePrompt)
  | "validate_vehicle_type" =>
    let vtOpt :=
      match (if buttonPayload ≠ "" then buttonVehicleType buttonPayload else none) with
      | some v => some v
      | none => textVehicleType msg
    match vtOpt with
    | none => (m, { sess with context := ctx }, .vehicleTypeInvalid)
    | some vt =>
      let rd1 := assocInsert "vehicle_type" (RegVal.str vt) regData
      let ctx1 := assocInsert "registration_data" (CtxVal.data rd1)
                    (assocInsert "step" (CtxVal.str "validate_capacity") ctx)
      (m, { sess with context := ctx1 }, .capacityPrompt)
  | "validate_capacity" =>
    match parseRat msg with
    | none => (m, { sess with context := ctx }, .capacityInvalid)
    | some c =>
      if c ≤ 0 || c > 100 then (m, { sess with context := ctx }, .capacityInvalid)
      else
        let rd1 := assocInsert "capacity" (RegVal.num c) regData
        let ctx1 := assocInsert "registration_data" (CtxVal.data rd1)
                      (assocInsert "step" (CtxVal.str "confirm_registration") ctx)
        match rd1.lookup "name", rd1.lookup "vehicle_no", rd1.lookup "vehicle_type" with
        | some (.str _), some (.str _), some (.str _) =>
          (m, { sess with context := ctx1 }, .confirmPrompt)
        | _, _, _ => (m, { sess with context := ctx1 }, .internalErr)
  | "confirm_registration" =>
    if buttonPayload ≠ "" then
      if buttonPayload == "confirm_yes" then confirmedRegistration m now sess ctx regData
      else if buttonPayload == "confirm_no" then restartRegistration m sess ctx
      else (m, { sess with context := ctx }, .confirmRepromptBtn)
    else
      let msgLower := strToLower msg
      if strContains msgLower "yes" || strContains msgLower "1" then
        confirmedRegistration m now sess ctx regData
      else if strContains msgLower "no" || strContains msgLower "2" then
        restartRegistration m sess ctx
      else (m, { sess with context := ctx }, .confirmRepromptText)
  | _ =>
    let ctx1 := assocInsert "step" (CtxVal.str "collect_name") ctx
    let (ctx2, r) := collectNameStep ctx1
    (m, { sess with context := ctx2 }, r)

/-- Dispatch of the next inbound message once the session's flow is
`trucker_registration`: `handleNewUser` (session.go:848) reads the `step`
context key and re-enters the flow there. -/
def truckerRegDispatch (m : MemoryStore) (now : Nat) (sess : NFSession)
    (msg buttonPayload : String) : MemoryStore × NFSession × RegResp :=
  handleTruckerRegistrationFlow m now sess (ctxStep sess.context) msg buttonPayload

deriving instance DecidableEq for Except

/-! ## Concrete fixtures used to instantiate the theorems -/

def emptyStore : MemoryStore :=
  { truckers := [], shippers := [], loads := [], bookings := [], otps := []
    truckerCounter := 0, loadCounter := 0, bookingCounter := 0 }

def sampleLoad : Load :=
  { loadID := "LD00001", shipperID := "SH00001", shipperPhone := "s1"
    fromCity := "Chennai", toCity := "Mumbai", price := 1000
    status := "available", createdAt := 0, updatedAt := 0 }

def sampleTrucker : Trucker :=
  { truckerID := "TRK00001", name := "Rajesh Kumar", phone := "p1"
    vehicleNo := "TN01AB1234", vehicleType := "Heavy Truck", capacity := 15
    verified := false, rating := 5, totalTrips := 0, available := true
    createdAt := 0, updatedAt := 0 }

def otherTrucker : Trucker :=
  { sampleTrucker with truckerID := "TRK00002", phone := "p2", vehicleNo := "TN01AB9999" }

def sampleShipper : Shipper :=
  { shipperID := "SH00099", companyName := "Acme Freight"
    gstNumber := "33AAAAA0000A1Z5", phone := "s9" }

def bookStore : MemoryStore :=
  { emptyStore with loads := [sampleLoad], truckers := [sampleTrucker] }

def transitBooking : Booking :=
  { bookingID := "BK00001", loadID := "LD00001", truckerID := "TRK00001"
    shipperID := "SH00001", agreedPrice := 1000, commission := 50, netAmount := 950
    status := "in_transit", paymentStatus := "pending"
    confirmedAt := some 1, pickedUpAt := some 5, deliveredAt := none
    completedAt := none, cancelledAt := none, createdAt := 1, updatedAt := 5 }

def confirmedBooking : Booking :=
  { transitBooking with status := "confirmed", pickedUpAt := none }

def deliveryOTP : OTP :=
  { phone := "p1", code := "111111", purpose := "booking_delivery"
    referenceID := "BK00001", expiresAt := 700, verifiedAt := none
    attempts := 0, isUsed := false }

def deliverStore : MemoryStore :=
  { emptyStore with
    truckers := [{ sampleTrucker with available := false }]
    loads := [{ sampleLoad with status := "in-transit" }]
    bookings := [transitBooking]
    otps := [(otpKey "p1" "111111" "booking_delivery", deliveryOTP)] }

def cancelStore : MemoryStore :=
  { emptyStore with
    truckers := [{ sampleTrucker with available := false }]
    loads := [{ sampleLoad with status := "booked" }]
    bookings := [confirmedBooking] }

def pickedUpStore : MemoryStore :=
  { cancelStore with bookings := [transitBooking] }

def shipperCancelStore : MemoryStore :=
  { emptyStore with
    shippers := [sampleShipper]
    truckers := [otherTrucker]
    loads := [{ sampleLoad with status := "booked" }]
    bookings := [confirmedBooking] }

def c1Store : MemoryStore :=
  (OTPService.createOTP emptyStore 0 "p1" "booking_pickup" "BK00001" "123456").1

def freshManager : SessionManager :=
  { sessions := [], sessionTTL := 30 * 60 }

def staleSession : Session :=
  { sessionID := "SESOLD", userPhone := "p1", userType := "trucker"
    userID := "TRK00001", userName := "Rajesh Kumar", createdAt := 0
    lastActive := 0, expiresAt := 100, isActive := true, context := [] }

def staleManager : SessionManager :=
  { sessions := [("p1", staleSession)], sessionTTL := 30 * 60 }

def confirmSession : NFSession :=
  { userPhone := "p7", userType := "new", userID := "", userName := ""
    context := [("flow", CtxVal.str "trucker_registration"),
                ("step", CtxVal.str "confirm_registration"),
                ("registration_data", CtxVal.data
                  [("name", RegVal.str "Old Name"),
                   ("vehicle_no", RegVal.str "TN01AB1234"),
                   ("vehicle_type", RegVal.str "Heavy Truck"),
                   ("capacity", RegVal.num 15)])] }

/-! ## Helper lemmas on the association-list and update primitives -/

theorem assocInsert_lookup_self {β : Type} (k : String) (v : β) (l : List (String × β)) :
    (assocInsert k v l).lookup k = some v := by
  induction l with
  | nil => simp [assocInsert, List.lookup]
  | cons hd tl ih =>
    obtain ⟨k0, w⟩ := hd
    by_cases h : k0 = k
    · subst h
      simp [assocInsert, List.lookup]
    · simp only [assocInsert, beq_iff_eq, if_neg h, List.lookup]
      have : (k == k0) = false := by
        simp [beq_eq_false_iff_ne, Ne.symm h]
      simp [this, ih]

theorem assocInsert_lookup_ne {β : Type} (k k' : String) (v : β) (l : List (String × β))
    (h : k' ≠ k) : (assocInsert k v l).lookup k' = l.lookup k' := by
  have hk : (k' == k) = false := beq_eq_false_iff_ne.mpr h
  induction l with
  | nil => simp [assocInsert, List.lookup, hk]
  | cons hd tl ih =>
    obtain ⟨k0, w⟩ := hd
    by_cases h0 : k0 = k
    · subst h0
      simp [assocInsert, List.lookup, hk]
    · simp only [assocInsert, beq_iff_eq, if_neg h0, List.lookup]
      cases hck : k' == k0 <;> simp [hck, ih]

theorem mem_assocInsert {β : Type} (k : String) (v : β) (l : List (String × β))
    (x : String × β) (hx : x ∈ assocInsert k v l) : x = (k, v) ∨ x ∈ l := by
  induction l with
  | nil => simpa [assocInsert] using hx
  | cons hd tl ih =>
    obtain ⟨k0, w⟩ := hd
    by_cases h : k0 = k
    · subst h
      simp only [assocInsert, beq_self_eq_true, if_true] at hx
      rcases List.mem_cons.mp hx with h1 | h1
      · exact Or.inl h1
      · exact Or.inr (List.mem_cons_of_mem _ h1)
    · simp only [assocInsert, beq_iff_eq, if_neg h] at hx
      rcases List.mem_cons.mp hx with h1 | h1
      · exact Or.inr (h1 ▸ List.mem_cons_self _ _)
      · rcases ih h1 with h2 | h2
        · exact Or.inl h2
        · exact Or.inr (List.mem_cons_of_mem _ h2)

theorem find?_updateFirst_same {α : Type} (p : α → Bool) (f : α → α) (l : List α) (x : α)
    (hx : l.find? p = some x) (hf : p (f x) = true) :
    (updateFirst p f l).find? p = some (f x) := by
  induction l with
  | nil => simp [List.find?] at hx
  | cons hd tl ih =>
    by_cases h : p hd = true
    · rw [List.find?_cons_of_pos tl h] at hx
      injection hx with hx
      subst hx
      simp only [updateFirst, if_pos h]
      exact List.find?_cons_of_pos _ hf
    · rw [List.find?_cons_of_neg tl h] at hx
      simp only [updateFirst, if_neg h]
      rw [List.find?_cons_of_neg _ h]
      exact ih hx

theorem verifyOTP_components (m : MemoryStore) (now : Nat) (p c pu : String) :
    (OTPService.verifyOTP m now p c pu).1.truckers = m.truckers ∧
    (OTPService.verifyOTP m now p c pu).1.shippers = m.shippers ∧
    (OTPService.verifyOTP m now p c pu).1.loads = m.loads ∧
    (OTPService.verifyOTP m now p c pu).1.bookings = m.bookings := by
  unfold OTPService.verifyOTP
  cases h : m.getActiveOTP p c pu
  · simp [MemoryStore.updateOTP]
  · simp [MemoryStore.updateOTP]
    split_ifs <;> simp

theorem updateLoadStatus_ok_truckers (m : MemoryStore) (now : Nat) (id st : String)
    (m2 : MemoryStore) (h : m.updateLoadStatus now id st = .ok m2) :
    m2.truckers = m.truckers := by
  unfold MemoryStore.updateLoadStatus at h
  split_ifs at h
  injection h with h
  rw [← h]

theorem ctxStep_insert_step (v : String) (ctx : List (String × CtxVal)) :
    ctxStep (assocInsert "step" (CtxVal.str v) ctx) = v := by
  unfold ctxStep
  rw [assocInsert_lookup_self]

theorem getRegData_insert_step (v : CtxVal) (ctx : List (String × CtxVal)) :
    getRegData (assocInsert "step" v ctx) = getRegData ctx := by
  unfold getRegData
  rw [assocInsert_lookup_ne _ _ _ _ (by decide)]

theorem getRegData_insert_rd (kvs : List (String × RegVal)) (ctx : List (String × CtxVal)) :
    getRegData (assocInsert "registration_data" (CtxVal.data kvs) ctx) = some kvs := by
  unfold getRegData
  rw [assocInsert_lookup_self]

/-! ## Claim theorems -/

/-- C6: for every store, phone, purpose and reference id, issuing an OTP and
immediately verifying with the correct code succeeds and returns the same
reference id, and a second verification with the same code then fails with
AlreadyUsed. -/
theorem otp_issue_verify_roundtrip (m : MemoryStore) (now : Nat)
    (phone purpose ref code : String) :
    (OTPService.verifyOTP (OTPService.createOTP m now phone purpose ref code).1
        now phone code purpose).2 = .ok ref ∧
    (OTPService.verifyOTP
        (OTPService.verifyOTP (OTPService.createOTP m now phone purpose ref code).1
            now phone code purpose).1
        now phone code purpose).2 = .error .alreadyUsed := by
  have hlt : ¬ (now + 10 * 60 < now) := by omega
  simp [OTPService.createOTP, MemoryStore.createOTP, OTPService.verifyOTP,
        MemoryStore.getActiveOTP, MemoryStore.updateOTP, assocInsert_lookup_self, hlt]

/-- C1: divergence witness. `c1Store` holds one issued OTP with code
`"123456"` for ("p1", "booking_pickup") and attempt counter 0. Because
`GetActiveOTP` looks records up by the composite key (phone, code, purpose),
a verification call supplying a wrong code returns NotFound and leaves the
store — in particular the attempt counter — untouched, so three consecutive
wrong-code calls below chain through identical stores, and the fourth call
with the correct code succeeds instead of yielding TooManyAttempts as the
spec requires; the `Attempts > 3` branch of `VerifyOTP` is unreachable. -/
theorem otp_attempt_limit_unreachable :
    (let v1 := OTPService.verifyOTP c1Store 0 "p1" "000000" "booking_pickup"
     let v2 := OTPService.verifyOTP v1.1 0 "p1" "000000" "booking_pickup"
     let v3 := OTPService.verifyOTP v2.1 0 "p1" "000000" "booking_pickup"
     v1.2 = .error .notFound ∧ v2.2 = .error .notFound ∧ v3.2 = .error .notFound ∧
     v3.1 = c1Store ∧
     (OTPService.verifyOTP v3.1 0 "p1" "123456" "booking_pickup").2 = .ok "BK00001") := by
  decide

/-- C2: CreateBooking succeeds exactly when the load exists with status
"available" and the trucker exists and is available; on success it generates
the next `BK%05d` id, fixes commission at 5 percent and net amount at 95
percent of the load's price, books the load and takes the trucker off the
market; it fails with the load/trucker not-found errors and the
"load not available" / "trucker not available" conflicts otherwise. -/
theorem createBooking_characterization (m : MemoryStore) (now : Nat)
    (loadID truckerID : String) :
    (m.getLoad loadID = none →
      m.createBooking now loadID truckerID = .error .loadNotFound)
  ∧ (∀ load, m.getLoad loadID = some load → load.status ≠ "available" →
      m.createBooking now loadID truckerID = .error .loadNotAvailable)
  ∧ (∀ load, m.getLoad loadID = some load → load.status = "available" →
      m.getTrucker truckerID = none →
      m.createBooking now loadID truckerID = .error .truckerNotFound)
  ∧ (∀ load trucker, m.getLoad loadID = some load → load.status = "available" →
      m.getTrucker truckerID = some trucker → trucker.available = false →
      m.createBooking now loadID truckerID = .error .truckerNotAvailable)
  ∧ (∀ load trucker, m.getLoad loadID = some load → load.status = "available" →
      m.getTrucker truckerID = some trucker → trucker.available = true →
      ∃ m2 b, m.createBooking now loadID truckerID = .ok (m2, b) ∧
        b.bookingID = "BK" ++ pad5 (m.bookingCounter + 1) ∧
        b.agreedPrice = load.price ∧
        b.commission = load.price * (5 / 100) ∧
        b.netAmount = load.price * (95 / 100) ∧
        b.status = BookingStatusConfirmed ∧
        b.paymentStatus = PaymentStatusPending ∧
        (∃ load2, m2.getLoad loadID = some load2 ∧ load2.status = "booked") ∧
        (∃ t2, m2.getTrucker truckerID = some t2 ∧ t2.available = false)) := by
  refine ⟨?_, ?_, ?_, ?_, ?_⟩
  · intro h
    simp [MemoryStore.createBooking, h]
  · intro load hl hs
    simp [MemoryStore.createBooking, hl, hs]
  · intro load hl hs ht
    simp [MemoryStore.createBooking, hl, hs, ht]
  · intro load trucker hl hs ht hav
    simp [MemoryStore.createBooking, hl, hs, ht, hav]
  · intro load trucker hl hs ht hav
    have hl2 : m.loads.find? (fun l => l.loadID == loadID) = some load := hl
    have ht2 : m.truckers.find? (fun t => t.truckerID == truckerID) = some trucker := ht
    have hplo : (load.loadID == loadID) = true := by simpa using List.find?_some hl2
    have hptr : (trucker.truckerID == truckerID) = true := by simpa using List.find?_some ht2
    simp only [MemoryStore.createBooking, hl, hs, ht, hav]
    refine ⟨_, _, rfl, rfl, rfl, rfl, rfl, rfl, rfl, ?_, ?_⟩
    · exact ⟨_, find?_updateFirst_same _ _ _ _ hl2 (by simpa using hplo), rfl⟩
    · exact ⟨_, find?_updateFirst_same _ _ _ _ ht2 (by simpa using hptr), rfl⟩

/-- C2 witness: on a store holding one available load priced 1000 and one
available trucker, booking succeeds with commission 50 and net amount 950,
books the load and makes the trucker unavailable. -/
theorem createBooking_characterization_witness :
    ∃ m2 b, bookStore.createBooking 0 "LD00001" "TRK00001" = .ok (m2, b) ∧
      b.bookingID = "BK" ++ pad5 (bookStore.bookingCounter + 1) ∧
      b.agreedPrice = sampleLoad.price ∧
      b.commission = sampleLoad.price * (5 / 100) ∧
      b.netAmount = sampleLoad.price * (95 / 100) ∧
      b.status = BookingStatusConfirmed ∧
      b.paymentStatus = PaymentStatusPending ∧
      (∃ load2, m2.getLoad "LD00001" = some load2 ∧ load2.status = "booked") ∧
      (∃ t2, m2.getTrucker "TRK00001" = some t2 ∧ t2.available = false) :=
  (createBooking_characterization bookStore 0 "LD00001" "TRK00001").2.2.2.2
    sampleLoad sampleTrucker (by decide) (by decide) (by decide) (by decide)

/-- C10: neither legacy handler touches the truckers table — in particular
the owning trucker's `Available` flag keeps whatever value it had before a
successful cancellation or delivery confirmation, because the handlers write
only the booking (via `UpdateBooking`) and the load (via
`UpdateLoadStatus`). -/
theorem legacy_handlers_never_touch_truckers (m : MemoryStore) (now : Nat)
    (phone msg : String) :
    (handleDeliveryConfirmation m now phone msg).1.truckers = m.truckers ∧
    (handleCancel m now phone msg).1.truckers = m.truckers := by
  constructor
  · rcases hf : fields msg with _ | ⟨w0, _ | ⟨bid, _ | ⟨code, rest⟩⟩⟩
    · simp [handleDeliveryConfirmation, hf]
    · simp [handleDeliveryConfirmation, hf]
    · simp [handleDeliveryConfirmation, hf]
    cases htr : m.getTruckerByPhone phone with
    | none => simp [handleDeliveryConfirmation, hf, htr]
    | some trucker =>
      cases hbk : m.getBooking bid with
      | none => simp [handleDeliveryConfirmation, hf, htr, hbk]
      | some booking =>
        by_cases hown : booking.truckerID ≠ trucker.truckerID
        · simp [handleDeliveryConfirmation, hf, htr, hbk, hown]
        · have heqid : booking.truckerID = trucker.truckerID := not_not.mp hown
          rcases hv : OTPService.verifyOTP m now phone code "booking_delivery" with ⟨m1, r⟩
          have ht : m1.truckers = m.truckers := by
            have h0 := (verifyOTP_components m now phone code "booking_delivery").1
            rw [hv] at h0
            exact h0
          cases r with
          | error e =>
            cases e <;> simp [handleDeliveryConfirmation, hf, htr, hbk, heqid, hv, ht]
          | ok refID =>
            by_cases hr : refID = bid
            · simp [handleDeliveryConfirmation, hf, htr, hbk, heqid, hv, hr]
              split
              · rename_i m3 hu
                have h3 := updateLoadStatus_ok_truckers _ _ _ _ _ hu
                simp [MemoryStore.updateBooking] at h3
                rw [h3, ht]
              · simp [MemoryStore.updateBooking, ht]
            · simp [handleDeliveryConfirmation, hf, htr, hbk, heqid, hv, hr, ht]
  · rcases hf : fields msg with _ | ⟨w0, _ | ⟨bid, rest⟩⟩
    · simp [handleCancel, hf]
    · simp [handleCancel, hf]
    by_cases hreg : ((m.getTruckerByPhone phone).isNone
                      && (m.getShipperByPhone phone).isNone) = true
    · simp [handleCancel, hf, hreg]
    · cases hbk : m.getBooking bid with
      | none => simp [handleCancel, hf, hreg, hbk]
      | some booking =>
        by_cases hown : (match m.getTruckerByPhone phone with
                         | some t => booking.truckerID != t.truckerID
                         | none => false) = true
        · simp [handleCancel, hf, hreg, hbk, hown]
        · by_cases hpu : booking.pickedUpAt.isSome
          · simp [handleCancel, hf, hreg, hbk, hown, hpu]
          · simp [handleCancel, hf, hreg, hbk, hown, hpu]
            split
            · rename_i m3 hu
              have h3 := updateLoadStatus_ok_truckers _ _ _ _ _ hu
              simp [MemoryStore.updateBooking] at h3
              rw [h3]
            · simp [MemoryStore.updateBooking]

/-- C5: when a `DELIVER <BookingID> <OTP>` message names a booking owned by
the calling trucker and the delivery OTP verifies successfully with that
booking id as its reference, the handler sets the booking's `DeliveredAt` to
the call time, its status to "delivered" and its payment status to
"pending", and sets the originating load's status to "completed". -/
theorem handleDeliveryConfirmation_success_effects (m : MemoryStore) (now : Nat)
    (phone msg bid code : String)
    (trucker : Trucker) (booking : Booking) (load : Load)
    (hparts : fields msg = ["DELIVER", bid, code])
    (htr : m.getTruckerByPhone phone = some trucker)
    (hbk : m.getBooking bid = some booking)
    (hown : booking.truckerID = trucker.truckerID)
    (hverify : (OTPService.verifyOTP m now phone code "booking_delivery").2 = .ok bid)
    (hload : m.getLoad booking.loadID = some load) :
    ∃ m2, handleDeliveryConfirmation m now phone msg = (m2, .delivered) ∧
      (∃ b2, m2.getBooking bid = some b2 ∧
        b2.deliveredAt = some now ∧
        b2.status = BookingStatusDelivered ∧
        b2.paymentStatus = "pending") ∧
      (∃ l2, m2.getLoad booking.loadID = some l2 ∧ l2.status = "completed") := by
  rcases hv : OTPService.verifyOTP m now phone code "booking_delivery" with ⟨m1, r⟩
  rw [hv] at hverify
  simp only at hverify
  subst hverify
  have hcomp := verifyOTP_components m now phone code "booking_delivery"
  rw [hv] at hcomp
  obtain ⟨-, -, hloads1, hbookings1⟩ := hcomp
  simp only at hloads1 hbookings1
  have hbk2 : m.bookings.find? (fun b => b.bookingID == bid) = some booking := hbk
  have hbid : (booking.bookingID == bid) = true := by simpa using List.find?_some hbk2
  have hbideq : booking.bookingID = bid := by simpa using hbid
  have hld2 : m.loads.find? (fun l => l.loadID == booking.loadID) = some load := hload
  have hlid : (load.loadID == booking.loadID) = true := by simpa using List.find?_some hld2
  simp only [handleDeliveryConfirmation, hparts, htr, hbk, hown, hv]
  rw [if_neg (by simp), if_neg (by simp)]
  split
  · rename_i m3 hu
    refine ⟨m3, rfl, ?_, ?_⟩
    · unfold MemoryStore.updateLoadStatus at hu
      split_ifs at hu
      injection hu with hu
      rw [← hu]
      simp only [MemoryStore.getBooking, MemoryStore.updateBooking]
      rw [hbideq, hbookings1]
      exact ⟨_, find?_updateFirst_same _ _ _ _ hbk2 (by simp), rfl, rfl, rfl⟩
    · unfold MemoryStore.updateLoadStatus at hu
      split_ifs at hu
      injection hu with hu
      rw [← hu]
      simp only [MemoryStore.getLoad, MemoryStore.updateBooking]
      rw [hloads1]
      exact ⟨_, find?_updateFirst_same _ _ _ _ hld2 (by simpa using hlid), rfl⟩
  · rename_i a hu
    exfalso
    unfold MemoryStore.updateLoadStatus at hu
    split_ifs at hu with hc
    apply hc
    simp only [MemoryStore.getLoad, MemoryStore.updateBooking]
    rw [hloads1, hld2]
    rfl

/-- C5 witness: on a store with one in-transit booking and a live delivery
OTP, `DELIVER BK00001 111111` delivers the booking and completes the load. -/
theorem handleDeliveryConfirmation_success_effects_witness :
    ∃ m2, handleDeliveryConfirmation deliverStore 10 "p1" "DELIVER BK00001 111111"
        = (m2, .delivered) ∧
      (∃ b2, m2.getBooking "BK00001" = some b2 ∧
        b2.deliveredAt = some 10 ∧
        b2.status = BookingStatusDelivered ∧
        b2.paymentStatus = "pending") ∧
      (∃ l2, m2.getLoad transitBooking.loadID = some l2 ∧ l2.status = "completed") :=
  handleDeliveryConfirmation_success_effects deliverStore 10 "p1"
    "DELIVER BK00001 111111" "BK00001" "111111"
    { sampleTrucker with available := false } transitBooking
    { sampleLoad with status := "in-transit" }
    (by decide) (by decide) (by decide) (by decide) (by decide) (by decide)

/-- C7: for a registered trucker cancelling their own booking whose load
exists, the cancel is rejected with the booking (and whole store) unchanged
once `PickedUpAt` is set; before pickup it marks the booking cancelled,
stamps `CancelledAt`, and puts the load back to "available". -/
theorem handleCancel_pickup_guard (m : MemoryStore) (now : Nat)
    (phone msg bid : String) (t : Trucker) (b : Booking) (l : Load)
    (hparts : fields msg = ["CANCEL", bid])
    (htr : m.getTruckerByPhone phone = some t)
    (hbk : m.getBooking bid = some b)
    (hown : b.truckerID = t.truckerID)
    (hload : m.getLoad b.loadID = some l) :
    (∀ ts, b.pickedUpAt = some ts → handleCancel m now phone msg = (m, .alreadyPickedUp))
  ∧ (b.pickedUpAt = none →
      ∃ m2, handleCancel m now phone msg = (m2, .cancelled) ∧
        (∃ b2, m2.getBooking bid = some b2 ∧
          b2.status = BookingStatusCancelled ∧ b2.cancelledAt = some now) ∧
        (∃ l2, m2.getLoad b.loadID = some l2 ∧ l2.status = "available")) := by
  have hbk2 : m.bookings.find? (fun x => x.bookingID == bid) = some b := hbk
  have hbid : (b.bookingID == bid) = true := by simpa using List.find?_some hbk2
  have hbideq : b.bookingID = bid := by simpa using hbid
  have hld2 : m.loads.find? (fun x => x.loadID == b.loadID) = some l := hload
  have hlid : (l.loadID == b.loadID) = true := by simpa using List.find?_some hld2
  constructor
  · intro ts hts
    simp [handleCancel, hparts, htr, hbk, hown, hts]
  · intro hnp
    simp only [handleCancel, hparts, htr, hbk, hown, hnp]
    simp only [Option.isNone_some, Bool.false_and, Bool.false_eq_true, if_false,
               bne_self_eq_false, Option.isSome_none, ite_false, ite_true]
    split
    · rename_i m3 hu
      refine ⟨m3, rfl, ?_, ?_⟩
      · unfold MemoryStore.updateLoadStatus at hu
        split_ifs at hu
        injection hu with hu
        rw [← hu]
        simp only [MemoryStore.getBooking, MemoryStore.updateBooking]
        rw [hbideq]
        exact ⟨_, find?_updateFirst_same _ _ _ _ hbk2 (by simp), rfl, rfl⟩
      · unfold MemoryStore.updateLoadStatus at hu
        split_ifs at hu
        injection hu with hu
        rw [← hu]
        simp only [MemoryStore.getLoad, MemoryStore.updateBooking]
        exact ⟨_, find?_updateFirst_same _ _ _ _ hld2 (by simpa using hlid), rfl⟩
    · rename_i a hu
      exfalso
      unfold MemoryStore.updateLoadStatus at hu
      split_ifs at hu with hc
      apply hc
      simp only [MemoryStore.getLoad, MemoryStore.updateBooking]
      rw [hld2]
      rfl

/-- C7 witness: on a picked-up booking `CANCEL BK00001` is rejected leaving
the store untouched; on the same booking before pickup it cancels the
booking and frees the load. -/
theorem handleCancel_pickup_guard_witness :
    handleCancel pickedUpStore 7 "p1" "CANCEL BK00001" = (pickedUpStore, .alreadyPickedUp) ∧
    (∃ m2, handleCancel cancelStore 7 "p1" "CANCEL BK00001" = (m2, .cancelled) ∧
      (∃ b2, m2.getBooking "BK00001" = some b2 ∧
        b2.status = BookingStatusCancelled ∧ b2.cancelledAt = some 7) ∧
      (∃ l2, m2.getLoad confirmedBooking.loadID = some l2 ∧ l2.status = "available")) :=
  ⟨(handleCancel_pickup_guard pickedUpStore 7 "p1" "CANCEL BK00001" "BK00001"
      { sampleTrucker with available := false } transitBooking
      { sampleLoad with status := "booked" }
      (by decide) (by decide) (by decide) (by decide) (by decide)).1 5 (by decide),
   (handleCancel_pickup_guard cancelStore 7 "p1" "CANCEL BK00001" "BK00001"
      { sampleTrucker with available := false } confirmedBooking
      { sampleLoad with status := "booked" }
      (by decide) (by decide) (by decide) (by decide) (by decide)).2 (by decide)⟩

/-- C9: in the legacy CANCEL command, ownership is enforced only against
truckers: a registered shipper whose phone is not a trucker's may cancel any
not-yet-picked-up booking, including one belonging to a different shipper,
while a trucker whose id differs from the booking's is rejected. -/
theorem cancel_ownership_trucker_only (m : MemoryStore) (now : Nat) :
    (∀ phone msg bid sh b, fields msg = ["CANCEL", bid] →
       m.getTruckerByPhone phone = none →
       m.getShipperByPhone phone = some sh →
       m.getBooking bid = some b →
       b.shipperID ≠ sh.shipperID →
       b.pickedUpAt = none →
       ∃ m2, handleCancel m now phone msg = (m2, .cancelled))
  ∧ (∀ phone msg bid t b, fields msg = ["CANCEL", bid] →
       m.getTruckerByPhone phone = some t →
       m.getBooking bid = some b →
       b.truckerID ≠ t.truckerID →
       handleCancel m now phone msg = (m, .notYourBooking)) := by
  constructor
  · intro phone msg bid sh b hparts htr hsh hbk hshown hnp
    simp only [handleCancel, hparts, htr, hsh, hbk, hnp]
    simp only [Option.isNone_none, Option.isNone_some, Bool.and_false, Bool.false_eq_true,
               if_false, Option.isSome_none, ite_false, ite_true]
    split
    · exact ⟨_, rfl⟩
    · exact ⟨_, rfl⟩
  · intro phone msg bid t b hparts htr hbk hneq
    simp [handleCancel, hparts, htr, hbk, hneq]

/-- C9 witness: shipper "s9" (phone registered only as a shipper) cancels a
booking belonging to shipper SH00001, while trucker TRK00002 is rejected on
the same booking owned by TRK00001. -/
theorem cancel_ownership_trucker_only_witness :
    (∃ m2, handleCancel shipperCancelStore 7 "s9" "CANCEL BK00001" = (m2, .cancelled)) ∧
    handleCancel shipperCancelStore 7 "p2" "CANCEL BK00001"
      = (shipperCancelStore, .notYourBooking) :=
  ⟨(cancel_ownership_trucker_only shipperCancelStore 7).1 "s9" "CANCEL BK00001"
      "BK00001" sampleShipper confirmedBooking
      (by decide) (by decide) (by decide) (by decide) (by decide) (by decide),
   (cancel_ownership_trucker_only shipperCancelStore 7).2 "p2" "CANCEL BK00001"
      "BK00001" otherTrucker confirmedBooking
      (by decide) (by decide) (by decide) (by decide)⟩

/-- C3 (amended): the TTL invariant `expires_at = last_active_at + TTL`
(TTL fixed at 30 minutes by `NewSessionManager`) is preserved by session
creation/touch (`CreateSession`), activity refresh
(`UpdateSessionActivity`) and context writes (`UpdateSessionContext`);
`ExtendSession`, however, adds the requested minutes to `expires_at` while
leaving `last_active` unchanged, so the invariant fails after any nonzero
extension — the last conjunct pins down exactly what the stored session
becomes. -/
theorem session_ttl_invariant_ops (sm : SessionManager) (now : Nat)
    (phone userType userID userName k : String) (v : CtxVal) (minutes : Nat)
    (hinv : SessionInv sm) :
    SessionInv (sm.createSession now phone userType userID userName).1
  ∧ (∀ sm2, sm.updateSessionActivity now phone = .ok sm2 → SessionInv sm2)
  ∧ (∀ sm2, sm.updateSessionContext now phone k v = .ok sm2 → SessionInv sm2)
  ∧ (∀ sm2 s, sm.sessions.lookup phone = some s →
       sm.extendSession phone minutes = .ok sm2 →
       sm2.sessions.lookup phone =
         some { s with expiresAt := s.expiresAt + minutes * 60 } ∧
       sm2.sessionTTL = sm.sessionTTL) := by
  refine ⟨?_, ?_, ?_, ?_⟩
  · unfold SessionManager.createSession
    cases hl : sm.sessions.lookup phone with
    | none =>
      intro e he
      rcases mem_assocInsert _ _ _ _ he with h | h
      · subst h
        rfl
      · exact hinv e h
    | some s =>
      by_cases hact : s.isActive
      · simp only [hact, if_true]
        intro e he
        rcases mem_assocInsert _ _ _ _ he with h | h
        · subst h
          rfl
        · exact hinv e h
      · simp only [hact, if_false]
        intro e he
        rcases mem_assocInsert _ _ _ _ he with h | h
        · subst h
          rfl
        · exact hinv e h
  · intro sm2 h
    unfold SessionManager.updateSessionActivity at h
    cases hl : sm.sessions.lookup phone with
    | none => rw [hl] at h; cases h
    | some s =>
      rw [hl] at h
      injection h with h
      subst h
      intro e he
      rcases mem_assocInsert _ _ _ _ he with h | h
      · subst h
        rfl
      · exact hinv e h
  · intro sm2 h
    unfold SessionManager.updateSessionContext at h
    cases hl : sm.sessions.lookup phone with
    | none => rw [hl] at h; cases h
    | some s =>
      rw [hl] at h
      injection h with h
      subst h
      intro e he
      rcases mem_assocInsert _ _ _ _ he with h | h
      · subst h
        rfl
      · exact hinv e h
  · intro sm2 s hl h
    unfold SessionManager.extendSession at h
    rw [hl] at h
    injection h with h
    subst h
    exact ⟨assocInsert_lookup_self _ _ _, rfl⟩

/-- C3 witness: starting from the empty 30-minute manager, creating a
session preserves the TTL invariant. -/
theorem session_ttl_invariant_ops_witness :
    SessionInv (freshManager.createSession 0 "p1" "trucker" "TRK00001" "Rajesh").1 :=
  (session_ttl_invariant_ops freshManager 0 "p1" "trucker" "TRK00001" "Rajesh"
    "k" (CtxVal.str "v") 10 (by decide)).1

/-- C3 counterexample to the claim as stated: create a session at time 0 (the
invariant holds), then `ExtendSession` by 10 minutes — the session store
afterwards violates `expires_at = last_active_at + TTL` (2400 ≠ 0 + 1800). -/
theorem session_ttl_extend_breaks_invariant :
    SessionInv (freshManager.createSession 0 "p1" "trucker" "TRK00001" "Rajesh").1 ∧
    (∃ sm2, (freshManager.createSession 0 "p1" "trucker" "TRK00001" "Rajesh").1.extendSession
        "p1" 10 = .ok sm2 ∧ ¬ SessionInv sm2) := by
  refine ⟨by decide, _, rfl, by decide⟩

/-- C4 (amended): `CreateSession` returns the stored session — refreshing its
TTL — whenever one exists for the phone with its active flag set, without
checking expiry, so an expired-but-active session is returned and
resurrected; a fresh session is created only when no session is stored or
the stored one is inactive. -/
theorem createSession_active_flag_only (sm : SessionManager) (now : Nat)
    (phone userType userID userName : String) :
    (∀ s, sm.sessions.lookup phone = some s → s.isActive = true →
       (sm.createSession now phone userType userID userName).2 =
         { s with lastActive := now, expiresAt := now + sm.sessionTTL })
  ∧ (∀ s, sm.sessions.lookup phone = some s → s.isActive = false →
       (sm.createSession now phone userType userID userName).2 =
         sm.freshSession now phone userType userID userName)
  ∧ (sm.sessions.lookup phone = none →
       (sm.createSession now phone userType userID userName).2 =
         sm.freshSession now phone userType userID userName) := by
  refine ⟨?_, ?_, ?_⟩
  · intro s hl hact
    simp [SessionManager.createSession, hl, hact]
  · intro s hl hact
    simp [SessionManager.createSession, hl, hact]
  · intro hl
    simp [SessionManager.createSession, hl]

/-- C4 witness: on the stale-but-active session store, `CreateSession` at
time 2000 returns the stored session with refreshed TTL. -/
theorem createSession_active_flag_only_witness :
    (staleManager.createSession 2000 "p1" "trucker" "TRK00001" "Rajesh").2 =
      { staleSession with lastActive := 2000, expiresAt := 2000 + staleManager.sessionTTL } :=
  (createSession_active_flag_only staleManager 2000 "p1" "trucker" "TRK00001" "Rajesh").1
    staleSession (by decide) (by decide)

/-- C4 counterexample to the claim as stated: `staleManager` stores a session
that expired at time 100 yet is flagged active; `CreateSession` at time 2000
hands back that very session (id "SESOLD", created at 0) instead of creating
a new one as the claim requires for an expired session. -/
theorem createSession_returns_expired_session :
    staleSession.isActive = true ∧
    staleSession.expiresAt < 2000 ∧
    (staleManager.createSession 2000 "p1" "trucker" "TRK00001" "Rajesh").2.sessionID
      = "SESOLD" ∧
    (staleManager.createSession 2000 "p1" "trucker" "TRK00001" "Rajesh").2.createdAt = 0 := by
  decide

/-- C8: from any session at the `confirm_registration` step — whatever
`registration_data` it accumulated — answering NO (reject button
`confirm_no`, or the text "NO") wipes `registration_data` and restarts the
flow, whose `collect_name` prompt leaves the step at `validate_name`; a
subsequent name entry then produces a registration_data holding exactly the
one `name` field, so no field of the prior attempt survives. -/
theorem registration_no_wipes_data (m : MemoryStore) (now : Nat) (sess : NFSession)
    (name : String) (hname : ¬ strLen (strTrim name) < 3) :
    (ctxStep (handleTruckerRegistrationFlow m now sess
        "confirm_registration" "" "confirm_no").2.1.context = "validate_name" ∧
     getRegData (handleTruckerRegistrationFlow m now sess
        "confirm_registration" "" "confirm_no").2.1.context = some [] ∧
     getRegData (truckerRegDispatch
        (handleTruckerRegistrationFlow m now sess "confirm_registration" "" "confirm_no").1 now
        (handleTruckerRegistrationFlow m now sess "confirm_registration" "" "confirm_no").2.1
        name "").2.1.context = some [("name", RegVal.str (strTrim name))]) ∧
    (ctxStep (handleTruckerRegistrationFlow m now sess
        "confirm_registration" "NO" "").2.1.context = "validate_name" ∧
     getRegData (handleTruckerRegistrationFlow m now sess
        "confirm_registration" "NO" "").2.1.context = some [] ∧
     getRegData (truckerRegDispatch
        (handleTruckerRegistrationFlow m now sess "confirm_registration" "NO" "").1 now
        (handleTruckerRegistrationFlow m now sess "confirm_registration" "NO" "").2.1
        name "").2.1.context = some [("name", RegVal.str (strTrim name))]) := by
  have hyes : strContains (strToLower "NO") "yes" = false := by decide
  have h1 : strContains (strToLower "NO") "1" = false := by decide
  have hno : strContains (strToLower "NO") "no" = true := by decide
  cases hrd : getRegData sess.context with
  | none =>
    refine ⟨⟨?_, ?_, ?_⟩, ⟨?_, ?_, ?_⟩⟩ <;>
      simp [handleTruckerRegistrationFlow, truckerRegDispatch, restartRegistration,
            collectNameStep, hrd, hname, hyes, h1, hno, ctxStep_insert_step,
            getRegData_insert_step, getRegData_insert_rd, assocInsert]
  | some kvs =>
    refine ⟨⟨?_, ?_, ?_⟩, ⟨?_, ?_, ?_⟩⟩ <;>
      simp [handleTruckerRegistrationFlow, truckerRegDispatch, restartRegistration,
            collectNameStep, hrd, hname, hyes, h1, hno, ctxStep_insert_step,
            getRegData_insert_step, getRegData_insert_rd, assocInsert]

/-- C8 witness: a session that reached confirmation with a fully populated
`registration_data` (name, vehicle, type, capacity), rejected via the button,
re-enters name collection and a fresh name leaves exactly one field. -/
theorem registration_no_wipes_data_witness :
    (ctxStep (handleTruckerRegistrationFlow emptyStore 0 confirmSession
        "confirm_registration" "" "confirm_no").2.1.context = "validate_name" ∧
     getRegData (handleTruckerRegistrationFlow emptyStore 0 confirmSession
        "confirm_registration" "" "confirm_no").2.1.context = some [] ∧
     getRegData (truckerRegDispatch
        (handleTruckerRegistrationFlow emptyStore 0 confirmSession
          "confirm_registration" "" "confirm_no").1 0
        (handleTruckerRegistrationFlow emptyStore 0 confirmSession
          "confirm_registration" "" "confirm_no").2.1
        "Rajesh Kumar" "").2.1.context
       = some [("name", RegVal.str (strTrim "Rajesh Kumar"))]) ∧
    (ctxStep (handleTruckerRegistrationFlow emptyStore 0 confirmSession
        "confirm_registration" "NO" "").2.1.context = "validate_name" ∧
     getRegData (handleTruckerRegistrationFlow emptyStore 0 confirmSession
        "confirm_registration" "NO" "").2.1.context = some [] ∧
     getRegData (truckerRegDispatch
        (handleTruckerRegistrationFlow emptyStore 0 confirmSession
          "confirm_registration" "NO" "").1 0
        (handleTruckerRegistrationFlow emptyStore 0 confirmSession
          "confirm_registration" "NO" "").2.1
        "Rajesh Kumar" "").2.1.context
       = some [("name", RegVal.str (strTrim "Rajesh Kumar"))]) :=
  registration_no_wipes_data emptyStore 0 confirmSession "Rajesh Kumar" (by decide)

end TruckPe
